import Mathlib

/-!
Verification of the `tdx-seal-rs` demonstration CLI
(`src/packages/tdx-seal-rs/src/main.rs`), a linear pipeline that simulates
deriving a deterministic private key from an Intel TDX sealing key.

The Rust source is shallowly embedded: machine bytes are `Nat` values with
explicit `% 256`, the two 64-bit capability words are `Nat` fields, fallible
Rust functions returning `anyhow::Result` become `Except String` values, and
`main` becomes a pure function of its environment inputs (effective uid,
`--format` argument, outcome of the platform capability probe) returning a
record of the observable outcome.
-/

namespace TdxSeal

/-- TDX feature bit: `TDX_FEATURES0_SEALING_BIT` (main.rs line 35). -/
def TDX_FEATURES0_SEALING_BIT : Nat := 0x00000001

/-- TDX attribute bit: `TDX_ATTRIBUTES_MIGRATABLE_BIT` (main.rs line 36). -/
def TDX_ATTRIBUTES_MIGRATABLE_BIT : Nat := 0x00000001

/-- Domain separator for key derivation (main.rs line 39). -/
def DOMAIN_SEPARATOR : String := "TDX_SEALING_PRIVATE_KEY_DERIVATION"

/-- The bytes of the domain separator (ASCII, as `DOMAIN_SEPARATOR.as_bytes()`). -/
def DOMAIN_SEPARATOR_BYTES : List Nat := DOMAIN_SEPARATOR.data.map Char.toNat

/-- TDX information structure: two 64-bit words (main.rs lines 42-46).
Modelled as `Nat`; the checks only ever mask with bit constants. -/
structure TdInfo where
  tdx_features0 : Nat
  tdx_attributes : Nat
deriving DecidableEq, Repr

/-- `try_get_tdinfo` (main.rs lines 66-90): in the build without the
`tdx-guest` cargo feature the function unconditionally bails. -/
def try_get_tdinfo : Except String TdInfo :=
  .error "TDX guest library not available (feature not enabled)"

/-- `get_tdx_info` (main.rs lines 49-63): wraps `try_get_tdinfo`, turning any
error into the fixed probe-failure error. -/
def get_tdx_info : Except String TdInfo :=
  match try_get_tdinfo with
  | .ok td_info => .ok td_info
  | .error _ => .error "TDX not available in current environment"

/-- `check_root_privileges` (main.rs lines 93-99, Unix branch): fails unless
the effective uid is 0.  The uid is an environment input of the model. -/
def check_root_privileges (euid : Nat) : Except String Unit :=
  if euid ≠ 0 then
    .error "This program must be run as root to access TDX features"
  else
    .ok ()

/-- `check_tdx_features` (main.rs lines 109-117): fails iff the SEALING bit
of `tdx_features0` is unset. -/
def check_tdx_features (td_info : TdInfo) : Except String Unit :=
  if ¬ (td_info.tdx_features0 &&& TDX_FEATURES0_SEALING_BIT ≠ 0) then
    .error "TDX sealing is not available (TDX_FEATURES0.SEALING = 0)"
  else
    .ok ()

/-- `check_tdx_attributes` (main.rs lines 120-128): fails iff the MIGRATABLE
bit of `tdx_attributes` is set. -/
def check_tdx_attributes (td_info : TdInfo) : Except String Unit :=
  if td_info.tdx_attributes &&& TDX_ATTRIBUTES_MIGRATABLE_BIT ≠ 0 then
    .error "TDX sealing is not available (ATTRIBUTES.MIGRATABLE = 1)"
  else
    .ok ()

/-- The two capability checks in the order `main` runs them
(main.rs lines 241-249): features first, then attributes. -/
def combined_capability_check (td_info : TdInfo) : Except String Unit :=
  match check_tdx_features td_info with
  | .error e => .error e
  | .ok _ => check_tdx_attributes td_info

/-- `get_tdx_measurement_report` (main.rs lines 132-144): simulated
measurement, byte `i` is `(i as u8).wrapping_add(0xAB)`. -/
def get_tdx_measurement_report : Except String (List Nat) :=
  .ok ((List.range 32).map (fun i => (i + 0xAB) % 256))

/-- `get_sealing_key` (main.rs lines 148-160): simulated sealing key, byte `i`
is `mrenclave[i].wrapping_add(0xCD)`. -/
def get_sealing_key (mrenclave : List Nat) : Except String (List Nat) :=
  .ok (mrenclave.map (fun b => (b + 0xCD) % 256))

/-! ### SHA-256

`derive_private_key` hashes with `sha2::Sha256`.  The crate implements
FIPS 180-4 SHA-256; we embed that algorithm directly, on `List Nat` bytes
with explicit `% 2 ^ 32` word arithmetic. -/

namespace SHA256

/-- Truncate to a 32-bit word. -/
def w32 (n : Nat) : Nat := n % 4294967296

/-- 32-bit right rotation. -/
def rotr (n x : Nat) : Nat := w32 ((x >>> n) ||| (x <<< (32 - n)))

/-- Right shift. -/
def shr (n x : Nat) : Nat := x >>> n

/-- FIPS 180-4 `Ch` function (bitwise choose). -/
def chFun (x y z : Nat) : Nat := (x &&& y) ^^^ ((x ^^^ 4294967295) &&& z)

/-- FIPS 180-4 `Maj` function (bitwise majority). -/
def majFun (x y z : Nat) : Nat := (x &&& y) ^^^ (x &&& z) ^^^ (y &&& z)

/-- FIPS 180-4 Σ0. -/
def bsig0 (x : Nat) : Nat := rotr 2 x ^^^ rotr 13 x ^^^ rotr 22 x

/-- FIPS 180-4 Σ1. -/
def bsig1 (x : Nat) : Nat := rotr 6 x ^^^ rotr 11 x ^^^ rotr 25 x

/-- FIPS 180-4 σ0. -/
def ssig0 (x : Nat) : Nat := rotr 7 x ^^^ rotr 18 x ^^^ shr 3 x

/-- FIPS 180-4 σ1. -/
def ssig1 (x : Nat) : Nat := rotr 17 x ^^^ rotr 19 x ^^^ shr 10 x

/-- The 64 round constants K (FIPS 180-4 §4.2.2), written in decimal. -/
def roundK : List Nat :=
  [1116352408, 1899447441, 3049323471, 3921009573, 961987163,
   1508970993, 2453635748, 2870763221, 3624381080, 310598401,
   607225278, 1426881987, 1925078388, 2162078206, 2614888103,
   3248222580, 3835390401, 4022224774, 264347078, 604807628,
   770255983, 1249150122, 1555081692, 1996064986, 2554220882,
   2821834349, 2952996808, 3210313671, 3336571891, 3584528711,
   113926993, 338241895, 666307205, 773529912, 1294757372,
   1396182291, 1695183700, 1986661051, 2177026350, 2456956037,
   2730485921, 2820302411, 3259730800, 3345764771, 3516065817,
   3600352804, 4094571909, 275423344, 430227734, 506948616,
   659060556, 883997877, 958139571, 1322822218, 1537002063,
   1747873779, 1955562222, 2024104815, 2227730452, 2361852424,
   2428436474, 2756734187, 3204031479, 3329325298]

/-- The initial hash value H⁽⁰⁾ (FIPS 180-4 §5.3.3), written in decimal. -/
def initH : List Nat :=
  [1779033703, 3144134277, 1013904242, 2773480762,
   1359893119, 2600822924, 528734635, 1541459225]

/-- Big-endian 8-byte encoding of a number (used for the length field). -/
def lenBytes (n : Nat) : List Nat :=
  [n >>> 56 % 256, n >>> 48 % 256, n >>> 40 % 256, n >>> 32 % 256,
   n >>> 24 % 256, n >>> 16 % 256, n >>> 8 % 256, n % 256]

/-- FIPS 180-4 padding: append `0x80`, zeros to 56 mod 64, then the 64-bit
big-endian bit length. -/
def pad (msg : List Nat) : List Nat :=
  let L := msg.length
  let k := (119 - L % 64) % 64
  msg ++ [0x80] ++ List.replicate k 0 ++ lenBytes (8 * L)

/-- Group bytes into big-endian 32-bit words. -/
def bytesToWords : List Nat → List Nat
  | b0 :: b1 :: b2 :: b3 :: rest =>
      (b0 * 16777216 + b1 * 65536 + b2 * 256 + b3) :: bytesToWords rest
  | _ => []

/-- Big-endian bytes of one 32-bit word. -/
def wordBytes (w : Nat) : List Nat :=
  [w / 16777216 % 256, w / 65536 % 256, w / 256 % 256, w % 256]

/-- Split a word list into 16-word blocks.  A padded message always has a
multiple of 16 words, so the catch-all only ever sees the empty list. -/
def toBlocks : List Nat → List (List Nat)
  | w0 :: w1 :: w2 :: w3 :: w4 :: w5 :: w6 :: w7 ::
    w8 :: w9 :: w10 :: w11 :: w12 :: w13 :: w14 :: w15 :: rest =>
      [w0, w1, w2, w3, w4, w5, w6, w7,
       w8, w9, w10, w11, w12, w13, w14, w15] :: toBlocks rest
  | _ => []

/-- Message schedule: extend a 16-word block to 64 words. -/
def schedule (block : List Nat) : List Nat :=
  (List.range 64).foldl
    (fun acc t =>
      if t < 16 then acc ++ [block.getD t 0]
      else acc ++ [w32 (ssig1 (acc.getD (t - 2) 0) + acc.getD (t - 7) 0 +
                        ssig0 (acc.getD (t - 15) 0) + acc.getD (t - 16) 0)])
    []

/-- One compression round. -/
def round (s : Nat × Nat × Nat × Nat × Nat × Nat × Nat × Nat) (kw : Nat × Nat) :
    Nat × Nat × Nat × Nat × Nat × Nat × Nat × Nat :=
  match s, kw with
  | (a, b, c, d, e, f, g, h), (k, w) =>
    let t1 := w32 (h + bsig1 e + chFun e f g + k + w)
    let t2 := w32 (bsig0 a + majFun a b c)
    (w32 (t1 + t2), a, b, c, w32 (d + t1), e, f, g)

/-- Compress one 16-word block into the running hash state. -/
def processBlock (H : List Nat) (block : List Nat) : List Nat :=
  let ws := schedule block
  let s0 := (H.getD 0 0, H.getD 1 0, H.getD 2 0, H.getD 3 0,
             H.getD 4 0, H.getD 5 0, H.getD 6 0, H.getD 7 0)
  match (roundK.zip ws).foldl round s0 with
  | (a, b, c, d, e, f, g, h) =>
    [w32 (H.getD 0 0 + a), w32 (H.getD 1 0 + b), w32 (H.getD 2 0 + c),
     w32 (H.getD 3 0 + d), w32 (H.getD 4 0 + e), w32 (H.getD 5 0 + f),
     w32 (H.getD 6 0 + g), w32 (H.getD 7 0 + h)]

/-- SHA-256 of a byte list (each byte a `Nat < 256`), as 32 bytes. -/
def sha256 (msg : List Nat) : List Nat :=
  ((toBlocks (bytesToWords (pad msg))).foldl processBlock initH).flatMap wordBytes

end SHA256

/-- `derive_private_key` (main.rs lines 163-176): SHA-256 of the domain
separator bytes followed by the sealing key.  The two `hasher.update` calls
hash the concatenation of the two byte strings. -/
def derive_private_key (sealing_key : List Nat) : Except String (List Nat) :=
  .ok (SHA256.sha256 (DOMAIN_SEPARATOR_BYTES ++ sealing_key))

/-- Hex digit characters used by `hex::encode` (lowercase). -/
def hexDigits : List Char := "0123456789abcdef".data

/-- Lowercase hex encoding of a byte list, as `hex::encode` produces. -/
def hexEncode (data : List Nat) : List Char :=
  data.flatMap (fun b => [hexDigits.getD (b / 16) 'x', hexDigits.getD (b % 16) 'x'])

/-- Modelled from the spec: the standard hexadecimal decoder, inverse of the
`hex` crate's encoding.  The program itself never decodes; the spec's
round-trip property ("decoding the printed hex string recovers the original
32 bytes") refers to this standard decoding. -/
def hexVal (c : Char) : Option Nat :=
  hexDigits.indexOf? c

/-- Modelled from the spec: decode a lowercase-hex character list, two
characters per byte. -/
def hexDecode : List Char → Option (List Nat)
  | [] => some []
  | c1 :: c2 :: rest =>
      match hexVal c1, hexVal c2, hexDecode rest with
      | some h, some l, some r => some ((h * 16 + l) :: r)
      | _, _, _ => none
  | [_] => none

/-- The standard base64 alphabet, as `base64::engine::general_purpose::STANDARD`
uses (RFC 4648, with `=` padding). -/
def base64Alphabet : List Char :=
  "ABCDEFGHIJKLMNOPQRSTUVWXYZabcdefghijklmnopqrstuvwxyz0123456789+/".data

/-- Character for a 6-bit value. -/
def base64Char (n : Nat) : Char := base64Alphabet.getD n 'A'

/-- Standard base64 encoding with padding, as the `STANDARD` engine produces:
three bytes become four characters; a final one- or two-byte group is padded
with `==` or `=`. -/
def base64Encode : List Nat → List Char
  | [] => []
  | [a] => [base64Char (a / 4), base64Char (a % 4 * 16), '=', '=']
  | [a, b] => [base64Char (a / 4), base64Char (a % 4 * 16 + b / 16),
               base64Char (b % 16 * 4), '=']
  | a :: b :: c :: rest =>
      base64Char (a / 4) :: base64Char (a % 4 * 16 + b / 16) ::
      base64Char (b % 16 * 4 + c / 64) :: base64Char (c % 64) ::
      base64Encode rest

/-- Modelled from the spec: 6-bit value of a base64 alphabet character. -/
def base64Val (c : Char) : Option Nat :=
  base64Alphabet.indexOf? c

/-- Modelled from the spec: the standard base64 decoder, inverse of the
`STANDARD` engine's encoding, for the round-trip property.  Four characters
at a time; `=` padding is accepted only at the very end. -/
def base64Decode : List Char → Option (List Nat)
  | [] => some []
  | c1 :: c2 :: c3 :: c4 :: rest =>
      match base64Val c1, base64Val c2 with
      | some v1, some v2 =>
        if c3 = '=' then
          if c4 = '=' ∧ rest = [] then some [v1 * 4 + v2 / 16] else none
        else
          match base64Val c3 with
          | some v3 =>
            if c4 = '=' then
              if rest = [] then some [v1 * 4 + v2 / 16, v2 % 16 * 16 + v3 / 4]
              else none
            else
              match base64Val c4, base64Decode rest with
              | some v4, some r =>
                  some ((v1 * 4 + v2 / 16) :: (v2 % 16 * 16 + v3 / 4) ::
                        (v3 % 4 * 64 + v4) :: r)
              | _, _ => none
          | none => none
      | _, _ => none
  | _ => none

/-- `print_hex` (main.rs lines 179-192): format one labeled output line.
The Rust `match` on the format string has arms `"hex"`, `"base64"` and a
catch-all that also prints hex. -/
def print_hex (label : String) (data : List Nat) (format : String) : String :=
  if format = "hex" then
    label ++ ": " ++ String.mk (hexEncode data)
  else if format = "base64" then
    label ++ ": " ++ String.mk (base64Encode data)
  else
    label ++ ": " ++ String.mk (hexEncode data)

/-- `secure_zero_memory` (main.rs lines 195-199): overwrite every byte with 0. -/
def secure_zero_memory (data : List Nat) : List Nat :=
  data.map (fun _ => 0)

/-- Whether an `Except` result is a success. -/
def exceptIsOk (r : Except String Unit) : Bool :=
  match r with
  | .ok _ => true
  | .error _ => false

/-- A tracked buffer is in the zeroed state: either it was never created, or
every byte is 0. -/
def bufferZeroed : Option (List Nat) → Bool
  | none => true
  | some l => l.all (fun b => b == 0)

/-- Observable outcome of one run of `main` (main.rs lines 201-301).

`printed` collects, in order, the labeled key-material lines written to
standard output via `print_hex`; progress and diagnostic lines are not key
material and are not tracked.  `tdInfoUsed` is the capability descriptor the
pipeline went on with (`none` if the run exited before obtaining one,
which happens only on the privilege check).  `usedMockTdInfo` records
whether the descriptor was the synthetic fallback.

`finalMrenclave`, `finalSealingKey`, `finalPrivateKey` are the contents of
the ORIGINAL `mrenclave` / `sealing_key` / `private_key` arrays at process
exit (`none` if the buffer was never created).  `[u8; 32]` is `Copy`, so
`let mut mrenclave_mut = mrenclave;` (main.rs lines 290-292) duplicates the
array; `secure_zero_memory` is applied to the duplicates only, and the
originals stay in scope untouched until exit.  The duplicates' contents at
exit are the `final*Copy` fields (`none` on paths that never reach main.rs
line 290). -/
structure MainResult where
  exitCode : Nat
  printed : List String
  tdInfoUsed : Option TdInfo
  usedMockTdInfo : Bool
  finalMrenclave : Option (List Nat)
  finalSealingKey : Option (List Nat)
  finalPrivateKey : Option (List Nat)
  finalMrenclaveCopy : Option (List Nat)
  finalSealingKeyCopy : Option (List Nat)
  finalPrivateKeyCopy : Option (List Nat)
deriving DecidableEq, Repr

/-- `main` (main.rs lines 201-301) as a function of its environment: the
effective uid seen by `check_root_privileges`, the `--format` argument, and
the outcome of the platform capability probe (`get_tdx_info`; in the build
under verification it is always the fixed error, but the probe outcome is a
parameter so the fallback branch can be stated for every outcome).

Each `process::exit(1)` arm becomes an early return with exit code 1.  On
probe failure `main` substitutes the mock descriptor
`{ tdx_features0: TDX_FEATURES0_SEALING_BIT, tdx_attributes: 0 }` and
continues (main.rs lines 223-237).  On the successful path, `main` copies
each array into a `*_mut` duplicate and zeroes the duplicate
(main.rs lines 290-296); the original arrays are not written again, so
they still hold the key material at exit. -/
def mainRun (euid : Nat) (format : String) (probe : Except String TdInfo) :
    MainResult :=
  match check_root_privileges euid with
  | .error _ => ⟨1, [], none, false, none, none, none, none, none, none⟩
  | .ok _ =>
    let (td_info, mock) :=
      match probe with
      | .ok info => (info, false)
      | .error _ => (⟨TDX_FEATURES0_SEALING_BIT, 0⟩, true)
    match check_tdx_features td_info with
    | .error _ => ⟨1, [], some td_info, mock, none, none, none, none, none, none⟩
    | .ok _ =>
    match check_tdx_attributes td_info with
    | .error _ => ⟨1, [], some td_info, mock, none, none, none, none, none, none⟩
    | .ok _ =>
    match get_tdx_measurement_report with
    | .error _ => ⟨1, [], some td_info, mock, none, none, none, none, none, none⟩
    | .ok mrenclave =>
      let line1 := print_hex "MRENCLAVE" mrenclave format
      match get_sealing_key mrenclave with
      | .error _ =>
          ⟨1, [line1], some td_info, mock,
           some mrenclave, none, none, none, none, none⟩
      | .ok sealing_key =>
        let line2 := print_hex "Sealing Key" sealing_key format
        match derive_private_key sealing_key with
        | .error _ =>
            ⟨1, [line1, line2], some td_info, mock,
             some mrenclave, some sealing_key, none, none, none, none⟩
        | .ok private_key =>
            let line3 := print_hex "Derived Private Key" private_key format
            ⟨0, [line1, line2, line3], some td_info, mock,
             some mrenclave, some sealing_key, some private_key,
             some (secure_zero_memory mrenclave),
             some (secure_zero_memory sealing_key),
             some (secure_zero_memory private_key)⟩

/-! ### Helper lemmas -/

/-- Hex digits decode back to their value. -/
theorem hexVal_hexDigit (x : Nat) (h : x < 16) :
    hexVal (hexDigits.getD x 'x') = some x := by
  interval_cases x <;> rfl

/-- Hex encode/decode round-trip, for arbitrary byte lists. -/
theorem hexDecode_hexEncode (l : List Nat) (h : ∀ b ∈ l, b < 256) :
    hexDecode (hexEncode l) = some l := by
  induction l with
  | nil => rfl
  | cons b t ih =>
    have hb : b < 256 := h b (List.mem_cons_self b t)
    have ht : ∀ x ∈ t, x < 256 := fun x hx => h x (List.mem_cons_of_mem b hx)
    have e1 : hexVal (hexDigits.getD (b / 16) 'x') = some (b / 16) :=
      hexVal_hexDigit _ (by omega)
    have e2 : hexVal (hexDigits.getD (b % 16) 'x') = some (b % 16) :=
      hexVal_hexDigit _ (by omega)
    simp only [hexEncode, List.flatMap_cons, List.cons_append, List.nil_append]
    simp only [hexEncode] at ih
    simp only [hexDecode, e1, e2, ih ht]
    have : b / 16 * 16 + b % 16 = b := by omega
    rw [this]

/-- Base64 alphabet characters decode back to their 6-bit value. -/
theorem base64Val_base64Char (x : Nat) (h : x < 64) :
    base64Val (base64Char x) = some x := by
  interval_cases x <;> rfl

/-- No base64 alphabet character is the padding character. -/
theorem base64Char_ne_pad (x : Nat) (h : x < 64) : base64Char x ≠ '=' := by
  interval_cases x <;> decide

/-- Base64 encode/decode round-trip, for arbitrary byte lists. -/
theorem base64Decode_base64Encode (l : List Nat) (h : ∀ b ∈ l, b < 256) :
    base64Decode (base64Encode l) = some l := by
  induction l using base64Encode.induct with
  | case1 => rfl
  | case2 a =>
    have ha : a < 256 := h a (by simp)
    rw [base64Encode]
    rw [base64Decode]
    rw [base64Val_base64Char _ (by omega), base64Val_base64Char _ (by omega)]
    simp only [if_pos rfl, and_self, ite_true, Option.some.injEq, List.cons.injEq,
      and_true]
    omega
  | case3 a b =>
    have ha : a < 256 := h a (by simp)
    have hb : b < 256 := h b (by simp)
    rw [base64Encode]
    rw [base64Decode]
    rw [base64Val_base64Char _ (by omega), base64Val_base64Char _ (by omega)]
    simp only [if_neg (base64Char_ne_pad (b % 16 * 4) (by omega)),
      base64Val_base64Char (b % 16 * 4) (by omega),
      if_pos rfl, ite_true, Option.some.injEq, List.cons.injEq, and_true]
    constructor <;> omega
  | case4 a b c rest ih =>
    have ha : a < 256 := h a (by simp)
    have hb : b < 256 := h b (by simp)
    have hc : c < 256 := h c (by simp)
    have hrest : ∀ x ∈ rest, x < 256 := by
      intro x hx
      exact h x (by simp [hx])
    rw [base64Encode]
    rw [base64Decode]
    rw [base64Val_base64Char _ (by omega), base64Val_base64Char _ (by omega)]
    simp only [if_neg (base64Char_ne_pad (b % 16 * 4 + c / 64) (by omega)),
      base64Val_base64Char (b % 16 * 4 + c / 64) (by omega),
      if_neg (base64Char_ne_pad (c % 64) (by omega)),
      base64Val_base64Char (c % 64) (by omega),
      ih hrest, Option.some.injEq, List.cons.injEq]
    refine ⟨by omega, by omega, by omega, trivial⟩

/-- Index into a `map` under `getD` when the index is in range. -/
theorem getD_map_lt (m : List Nat) (f : Nat → Nat) (i : Nat) (h : i < m.length) :
    (m.map f).getD i 0 = f (m.getD i 0) := by
  simp [List.getD_eq_getElem?_getD, List.getElem?_map, List.getElem?_eq_getElem, h]

/-! ### Claim theorems -/

/-- C1: for every 32-byte measurement value, `get_sealing_key` succeeds and
the returned sealing key satisfies
`sealing_key[i] = (measurement[i] + 0xCD) mod 256` for every index `i < 32`. -/
theorem sealing_key_byte_transform (m : List Nat) (i : Nat)
    (hm : m.length = 32) (hi : i < 32) :
    ∃ sk, get_sealing_key m = .ok sk ∧
      sk.getD i 0 = (m.getD i 0 + 0xCD) % 256 := by
  refine ⟨_, rfl, ?_⟩
  exact getD_map_lt m _ i (by omega)

/-- Witness for C1 at a concrete measurement. -/
theorem sealing_key_byte_transform_witness :
    ∃ sk, get_sealing_key (List.replicate 32 7) = .ok sk ∧
      sk.getD 3 0 = ((List.replicate 32 7).getD 3 0 + 0xCD) % 256 :=
  sealing_key_byte_transform (List.replicate 32 7) 3 (by decide) (by decide)

/-- C2: `derive_private_key` returns exactly the SHA-256 hash of the domain
separator bytes concatenated with the sealing key, and running it twice on
the same sealing key yields the identical private key. -/
theorem private_key_is_hash_and_deterministic (sealing_key : List Nat) :
    derive_private_key sealing_key =
      .ok (SHA256.sha256 (DOMAIN_SEPARATOR_BYTES ++ sealing_key)) ∧
    derive_private_key sealing_key = derive_private_key sealing_key :=
  ⟨rfl, rfl⟩

/-- C7: `print_hex` with any format other than `"hex"` and `"base64"`
produces output identical to `print_hex` with format `"hex"`. -/
theorem unknown_format_falls_back_to_hex (label : String) (data : List Nat)
    (format : String) (h1 : format ≠ "hex") (h2 : format ≠ "base64") :
    print_hex label data format = print_hex label data "hex" := by
  simp [print_hex, h1, h2]

/-- Witness for C7 at a concrete unknown format. -/
theorem unknown_format_falls_back_to_hex_witness :
    print_hex "MRENCLAVE" [0, 255] "yaml" = print_hex "MRENCLAVE" [0, 255] "hex" :=
  unknown_format_falls_back_to_hex "MRENCLAVE" [0, 255] "yaml"
    (by decide) (by decide)

/-- C8: for every 32-byte buffer, the hex line printed by `print_hex` carries
exactly `hexEncode` of the bytes and decoding it recovers the original bytes;
likewise for base64. -/
theorem encode_decode_round_trip (label : String) (data : List Nat)
    (_hlen : data.length = 32) (hbytes : ∀ b ∈ data, b < 256) :
    print_hex label data "hex" = label ++ ": " ++ String.mk (hexEncode data) ∧
    hexDecode (hexEncode data) = some data ∧
    print_hex label data "base64" =
      label ++ ": " ++ String.mk (base64Encode data) ∧
    base64Decode (base64Encode data) = some data :=
  ⟨rfl, hexDecode_hexEncode data hbytes, rfl, base64Decode_base64Encode data hbytes⟩

/-- Witness for C8 at a concrete 32-byte buffer. -/
theorem encode_decode_round_trip_witness :
    print_hex "Sealing Key" (List.range 32) "hex" =
      "Sealing Key" ++ ": " ++ String.mk (hexEncode (List.range 32)) ∧
    hexDecode (hexEncode (List.range 32)) = some (List.range 32) ∧
    print_hex "Sealing Key" (List.range 32) "base64" =
      "Sealing Key" ++ ": " ++ String.mk (base64Encode (List.range 32)) ∧
    base64Decode (base64Encode (List.range 32)) = some (List.range 32) :=
  encode_decode_round_trip "Sealing Key" (List.range 32) (by decide) (by decide)

/-- C3: the combined capability check (`check_tdx_features` then
`check_tdx_attributes`, in `main`'s order) fails whenever feature bit 0 is
unset regardless of the attributes word, fails whenever attribute bit 0 is
set regardless of the features word, and succeeds exactly when feature
bit 0 = 1 and attribute bit 0 = 0. -/
theorem capability_check_bit_semantics (info : TdInfo) :
    (info.tdx_features0.testBit 0 = false →
      exceptIsOk (combined_capability_check info) = false) ∧
    (info.tdx_attributes.testBit 0 = true →
      exceptIsOk (combined_capability_check info) = false) ∧
    (exceptIsOk (combined_capability_check info) = true ↔
      info.tdx_features0.testBit 0 = true ∧
      info.tdx_attributes.testBit 0 = false) := by
  rcases Nat.mod_two_eq_zero_or_one info.tdx_features0 with hf | hf <;>
    rcases Nat.mod_two_eq_zero_or_one info.tdx_attributes with ha | ha <;>
    simp [combined_capability_check, check_tdx_features, check_tdx_attributes,
      exceptIsOk, TDX_FEATURES0_SEALING_BIT, TDX_ATTRIBUTES_MIGRATABLE_BIT,
      Nat.and_one_is_mod, Nat.testBit_zero, hf, ha]

/-- Witness for C3: the all-good descriptor passes, a descriptor with the
feature bit unset fails, and one with the migratable attribute set fails. -/
theorem capability_check_bit_semantics_witness :
    exceptIsOk (combined_capability_check ⟨1, 0⟩) = true ∧
    exceptIsOk (combined_capability_check ⟨0, 1⟩) = false ∧
    exceptIsOk (combined_capability_check ⟨1, 1⟩) = false :=
  ⟨(capability_check_bit_semantics ⟨1, 0⟩).2.2.mpr ⟨by decide, by decide⟩,
   (capability_check_bit_semantics ⟨0, 1⟩).1 (by decide),
   (capability_check_bit_semantics ⟨1, 1⟩).2.1 (by decide)⟩

/-- C10: each capability check depends only on bit 0 of its word: any two
descriptors agreeing on bit 0 of the feature word and bit 0 of the attribute
word get identical results from `check_tdx_features` and
`check_tdx_attributes`. -/
theorem capability_check_depends_only_on_bit0 (a b : TdInfo)
    (hf : a.tdx_features0.testBit 0 = b.tdx_features0.testBit 0)
    (ha : a.tdx_attributes.testBit 0 = b.tdx_attributes.testBit 0) :
    check_tdx_features a = check_tdx_features b ∧
    check_tdx_attributes a = check_tdx_attributes b := by
  simp only [Nat.testBit_zero, decide_eq_decide] at hf ha
  have hf' : a.tdx_features0 % 2 = b.tdx_features0 % 2 := by omega
  have ha' : a.tdx_attributes % 2 = b.tdx_attributes % 2 := by omega
  constructor
  · simp only [check_tdx_features, TDX_FEATURES0_SEALING_BIT,
      Nat.and_one_is_mod, hf']
  · simp only [check_tdx_attributes, TDX_ATTRIBUTES_MIGRATABLE_BIT,
      Nat.and_one_is_mod, ha']

/-- Witness for C10: two descriptors differing in every higher bit but
agreeing on bit 0 of each word get identical check results. -/
theorem capability_check_depends_only_on_bit0_witness :
    check_tdx_features ⟨0xFFFFFFFFFFFFFFFF, 0⟩ =
      check_tdx_features ⟨1, 0xFFFFFFFFFFFFFFFE⟩ ∧
    check_tdx_attributes ⟨0xFFFFFFFFFFFFFFFF, 0⟩ =
      check_tdx_attributes ⟨1, 0xFFFFFFFFFFFFFFFE⟩ :=
  capability_check_depends_only_on_bit0 ⟨0xFFFFFFFFFFFFFFFF, 0⟩
    ⟨1, 0xFFFFFFFFFFFFFFFE⟩ (by decide) (by decide)

/-- C4: the simulated measurement has byte `i = (i + 0xAB) mod 256`, the
sealing key derived from it has byte `i = (i + 0x78) mod 256`, and the
private key derived from that sealing key is the fixed SHA-256 digest of the
domain separator concatenated with it
(`1cca36f6b2936ad8cd576eff4823df7a7b66139aae33d559c48517bcb4ae63de`). -/
theorem end_to_end_simulated_pipeline :
    ∃ m sk, get_tdx_measurement_report = .ok m ∧ get_sealing_key m = .ok sk ∧
      (∀ i, i < 32 → m.getD i 0 = (i + 0xAB) % 256) ∧
      (∀ i, i < 32 → sk.getD i 0 = (i + 0x78) % 256) ∧
      derive_private_key sk =
        .ok (SHA256.sha256 (DOMAIN_SEPARATOR_BYTES ++ sk)) ∧
      SHA256.sha256 (DOMAIN_SEPARATOR_BYTES ++ sk) =
        [0x1c, 0xca, 0x36, 0xf6, 0xb2, 0x93, 0x6a, 0xd8,
         0xcd, 0x57, 0x6e, 0xff, 0x48, 0x23, 0xdf, 0x7a,
         0x7b, 0x66, 0x13, 0x9a, 0xae, 0x33, 0xd5, 0x59,
         0xc4, 0x85, 0x17, 0xbc, 0xb4, 0xae, 0x63, 0xde] :=
  ⟨_, _, rfl, rfl, by decide, by decide, rfl, by decide⟩

/-- C6: when the effective user is not root, the run exits with code 1 and
no key material line is ever printed. -/
theorem unprivileged_exit_no_key_material (euid : Nat) (fmt : String)
    (probe : Except String TdInfo) (h : euid ≠ 0) :
    (mainRun euid fmt probe).exitCode = 1 ∧
    (mainRun euid fmt probe).printed = [] := by
  simp [mainRun, check_root_privileges, h]

/-- Witness for C6 at a concrete unprivileged uid. -/
theorem unprivileged_exit_no_key_material_witness :
    (mainRun 1000 "hex" (.error "TDX not available in current environment")).exitCode = 1 ∧
    (mainRun 1000 "hex" (.error "TDX not available in current environment")).printed = [] :=
  unprivileged_exit_no_key_material 1000 "hex"
    (.error "TDX not available in current environment") (by decide)

/-- C5: a failed capability probe does not abort the run: `main` substitutes
the synthetic descriptor `{tdx_features0 := TDX_FEATURES0_SEALING_BIT,
tdx_attributes := 0}` and the pipeline completes with exit code 0.  The
other errors that can arise in the pipeline — privilege denied and either
capability check failing — all terminate with exit code 1 (measurement
retrieval, sealing-key request and key derivation cannot fail in this
build). -/
theorem probe_failure_sole_recoverable (e fmt : String) :
    ((mainRun 0 fmt (.error e)).exitCode = 0 ∧
     (mainRun 0 fmt (.error e)).usedMockTdInfo = true ∧
     (mainRun 0 fmt (.error e)).tdInfoUsed =
       some ⟨TDX_FEATURES0_SEALING_BIT, 0⟩) ∧
    (∀ euid, euid ≠ 0 → (mainRun euid fmt (.error e)).exitCode = 1) ∧
    (∀ info : TdInfo, exceptIsOk (combined_capability_check info) = false →
      (mainRun 0 fmt (.ok info)).exitCode = 1) := by
  refine ⟨⟨rfl, rfl, rfl⟩, ?_, ?_⟩
  · intro euid h
    simp [mainRun, check_root_privileges, h]
  · intro info hinfo
    cases hcf : check_tdx_features info with
    | error e1 => simp [mainRun, check_root_privileges, hcf]
    | ok u =>
      cases hca : check_tdx_attributes info with
      | error e2 => simp [mainRun, check_root_privileges, hcf, hca]
      | ok u2 =>
        rw [combined_capability_check, hcf, hca] at hinfo
        simp [exceptIsOk] at hinfo

/-- Witness for C5: with a failing probe the run exits 0 on the mock
descriptor; unprivileged and capability-failing runs exit 1. -/
theorem probe_failure_sole_recoverable_witness :
    (mainRun 0 "hex" (.error "TDX not available in current environment")).exitCode = 0 ∧
    (mainRun 7 "hex" (.error "TDX not available in current environment")).exitCode = 1 ∧
    (mainRun 0 "hex" (.ok ⟨0, 0⟩)).exitCode = 1 :=
  ⟨(probe_failure_sole_recoverable "TDX not available in current environment" "hex").1.1,
   (probe_failure_sole_recoverable "TDX not available in current environment" "hex").2.1
     7 (by decide),
   (probe_failure_sole_recoverable "TDX not available in current environment" "hex").2.2
     ⟨0, 0⟩ (by decide)⟩

/-- C9 (refuted — the code contradicts its own intent): in the ordinary
successful run (root, default `--format hex`, the probe failing as it does
in this build, modelled by passing `get_tdx_info` itself), the program
leaves key material in memory at process exit.  `main` copies each array
into a `Copy`-duplicate (`mrenclave_mut`, `sealing_key_mut`,
`private_key_mut`, main.rs lines 290-292) and `secure_zero_memory` zeroes
only those duplicates (lines 294-296): the duplicates end all-zero, but the
original `mrenclave`, `sealing_key` and `private_key` arrays are still in
scope un-zeroed when the process exits — `finalMrenclave` still holds the
measurement bytes — even though the program then claims "Sensitive data
securely cleared from memory". -/
theorem sensitive_originals_unzeroed_at_exit :
    (mainRun 0 "hex" get_tdx_info).exitCode = 0 ∧
    (mainRun 0 "hex" get_tdx_info).finalMrenclave =
      some ((List.range 32).map (fun i => (i + 0xAB) % 256)) ∧
    bufferZeroed (mainRun 0 "hex" get_tdx_info).finalMrenclave = false ∧
    bufferZeroed (mainRun 0 "hex" get_tdx_info).finalSealingKey = false ∧
    bufferZeroed (mainRun 0 "hex" get_tdx_info).finalPrivateKey = false ∧
    bufferZeroed (mainRun 0 "hex" get_tdx_info).finalMrenclaveCopy = true ∧
    bufferZeroed (mainRun 0 "hex" get_tdx_info).finalSealingKeyCopy = true ∧
    bufferZeroed (mainRun 0 "hex" get_tdx_info).finalPrivateKeyCopy = true := by
  refine ⟨rfl, rfl, by decide, by decide, by decide, by decide, by decide, by decide⟩

end TdxSeal
